import Mathlib

/-!
Shallow embedding of the risk-gated signal engine of the
`stock-trading-agent` repository (Python), together with theorems about
its risk-manager state machine, signal scoring and options selection.

Conventions of the embedding:
* Python floats are modelled as rationals (`ℚ`).
* Python `None` becomes `Option.none`.
* Python `ZeroDivisionError` (raised by `/` on a zero denominator,
  including float division) is modelled by `Except.error RiskErr.zeroDivision`.
  Stateful methods return the mutated object together with the `Except`
  result, because a Python object keeps mutations made before an exception
  propagates.
* `datetime.now().date()` is an external input; methods that read the
  clock take the current date as an explicit parameter (a `Nat` day index).
* Log and notification side effects are dropped; the human-readable reason
  strings keep their fixed prefixes, without the interpolated numbers.
-/

namespace StockTradingAgent

/-! ## config/trading_rules.py -/

def DAILY_LOSS_LIMIT : ℚ := 3 / 100

def MAX_DRAWDOWN : ℚ := 40 / 100

def MAX_POSITION_SIZE_STOCK : ℚ := 10 / 100

def MAX_POSITION_SIZE_OPTION : ℚ := 5 / 100

def MIN_POSITION_SIZE : ℚ := 1000

def MAX_TOTAL_POSITIONS : ℕ := 15

def MAX_STOCK_POSITIONS : ℕ := 8

def MAX_OPTIONS_POSITIONS : ℕ := 12

def MAX_SECTOR_EXPOSURE : ℚ := 30 / 100

def MIN_ENTRY_SCORE : ℚ := 60

def HIGH_CONFIDENCE_THRESHOLD : ℚ := 85

def MEDIUM_CONFIDENCE_THRESHOLD : ℚ := 70

/-! ## src/execution/risk_manager.py — data model -/

/-- Error raised by Python code the embedding models: division by zero. -/
inductive RiskErr where
  | zeroDivision
deriving DecidableEq, Repr

/-- Mutable state of `RiskManager.__init__`.  `daily_loss_count` is kept
for fidelity although no modelled method reads it. -/
structure RiskManager where
  daily_start_equity : Option ℚ
  peak_equity : Option ℚ
  circuit_breaker_triggered : Bool
  max_drawdown_triggered : Bool
  daily_loss_count : ℕ
  last_reset_date : Option ℕ
deriving DecidableEq, Repr

/-- `RiskManager()` constructor: all `None` / `False` / `0`. -/
def RiskManager.init : RiskManager :=
  { daily_start_equity := none
    peak_equity := none
    circuit_breaker_triggered := false
    max_drawdown_triggered := false
    daily_loss_count := 0
    last_reset_date := none }

/-- `asset_type` argument of `check_position_size`; the Python code treats
every non-`"stock"` string as an option. -/
inductive AssetType where
  | stock
  | opt
deriving DecidableEq, Repr

/-- `action` argument of `validate_trade`; the Python code runs the
buy-side checks only when `action.lower() == "buy"`, so every other
string behaves like `sell`. -/
inductive Action where
  | buy
  | sell
deriving DecidableEq, Repr

/-- `account_info` dict: the two keys `validate_trade` reads
(`.get(key, 0)` makes both total). -/
structure AccountInfo where
  portfolio_value : ℚ
  buying_power : ℚ
deriving DecidableEq, Repr

/-- `current_positions` dict: the three keys `check_position_count` reads
(`.get(key, 0)` makes all total). -/
structure PositionCounts where
  total : ℕ
  stocks : ℕ
  options : ℕ
deriving DecidableEq, Repr

/-! ## src/execution/risk_manager.py — methods -/

/-- `RiskManager.reset_daily_limits(current_equity)`, with
`datetime.now().date()` passed in as `today`. -/
def reset_daily_limits (s : RiskManager) (today : ℕ) (current_equity : ℚ) :
    RiskManager :=
  if s.last_reset_date ≠ some today then
    { s with
      daily_start_equity := some current_equity
      circuit_breaker_triggered := false
      daily_loss_count := 0
      last_reset_date := some today }
  else s

/-- `RiskManager.update_peak_equity(current_equity)`. -/
def update_peak_equity (s : RiskManager) (current_equity : ℚ) : RiskManager :=
  match s.peak_equity with
  | none => { s with peak_equity := some current_equity }
  | some p =>
      if current_equity > p then { s with peak_equity := some current_equity }
      else s

/-- `RiskManager.check_daily_loss_limit(current_equity)`.  Returns the
mutated state and `(is_allowed, reason)`, or the `ZeroDivisionError`
Python raises when `daily_start_equity` is `0`. -/
def check_daily_loss_limit (s : RiskManager) (current_equity : ℚ) :
    RiskManager × Except RiskErr (Bool × String) :=
  if s.circuit_breaker_triggered then
    (s, .ok (false, "Circuit breaker already triggered today"))
  else
    match s.daily_start_equity with
    | none => ({ s with daily_start_equity := some current_equity }, .ok (true, ""))
    | some d0 =>
        if d0 = 0 then (s, .error .zeroDivision)
        else
          let daily_loss_pct := (d0 - current_equity) / d0
          if daily_loss_pct ≥ DAILY_LOSS_LIMIT then
            ({ s with circuit_breaker_triggered := true },
             .ok (false, "Daily loss limit hit"))
          else (s, .ok (true, ""))

/-- `RiskManager.check_max_drawdown(current_equity)`.  The peak update
happens before the division, so the mutated state is returned even when
the division raises (`peak_equity = 0` is only possible when every equity
seen was nonpositive). -/
def check_max_drawdown (s : RiskManager) (current_equity : ℚ) :
    RiskManager × Except RiskErr (Bool × String) :=
  if s.max_drawdown_triggered then
    (s, .ok (false, "Max drawdown limit already triggered"))
  else
    match s.peak_equity with
    | none => ({ s with peak_equity := some current_equity }, .ok (true, ""))
    | some _ =>
        let s1 := update_peak_equity s current_equity
        let p := s1.peak_equity.getD 0
        if p = 0 then (s1, .error .zeroDivision)
        else
          let drawdown := (p - current_equity) / p
          if drawdown ≥ MAX_DRAWDOWN then
            ({ s1 with max_drawdown_triggered := true },
             .ok (false, "Max drawdown hit"))
          else (s1, .ok (true, ""))

/-- `RiskManager.check_position_size(position_value, portfolio_value,
asset_type)`; pure, raises on `portfolio_value = 0`. -/
def check_position_size (position_value portfolio_value : ℚ)
    (asset_type : AssetType) : Except RiskErr (Bool × String) :=
  if portfolio_value = 0 then .error .zeroDivision
  else
    let position_pct := position_value / portfolio_value
    let max_size :=
      match asset_type with
      | .stock => MAX_POSITION_SIZE_STOCK
      | .opt => MAX_POSITION_SIZE_OPTION
    if position_pct > max_size then .ok (false, "Position too large")
    else if position_value < MIN_POSITION_SIZE then .ok (false, "Position too small")
    else .ok (true, "")

/-- `RiskManager.check_position_count(current_positions)`. -/
def check_position_count (c : PositionCounts) : Bool × String :=
  if c.total ≥ MAX_TOTAL_POSITIONS then (false, "Max positions reached")
  else if c.stocks ≥ MAX_STOCK_POSITIONS then (false, "Max stock positions reached")
  else if c.options ≥ MAX_OPTIONS_POSITIONS then (false, "Max option positions reached")
  else (true, "")

/-- `RiskManager.check_buying_power(required_capital, available_buying_power)`. -/
def check_buying_power (required_capital available_buying_power : ℚ) :
    Bool × String :=
  if required_capital > available_buying_power then
    (false, "Insufficient buying power")
  else (true, "")

/-- `RiskManager.check_sector_exposure(sector, new_position_value,
current_sector_exposure, portfolio_value)`.  The exposure dict is
modelled as the total function `current_sector_exposure` that
`dict.get(sector, 0)` realises. -/
def check_sector_exposure (sector : String) (new_position_value : ℚ)
    (current_sector_exposure : String → ℚ) (portfolio_value : ℚ) :
    Except RiskErr (Bool × String) :=
  if portfolio_value = 0 then .error .zeroDivision
  else
    let new_exposure := current_sector_exposure sector + new_position_value
    let exposure_pct := new_exposure / portfolio_value
    if exposure_pct > MAX_SECTOR_EXPOSURE then
      .ok (false, "Sector exposure too high")
    else .ok (true, "")

/-- `RiskManager.validate_trade(...)`: the composite gate, run in the
source's fixed order with first-failure return.  An empty `sector` string
is falsy in Python, so the sector check also needs `sector ≠ ""`. -/
def validate_trade (s : RiskManager) (action : Action) (quantity price : ℚ)
    (asset_type : AssetType) (account_info : AccountInfo)
    (current_positions : PositionCounts) (sector : Option String)
    (sector_exposure : Option (String → ℚ)) :
    RiskManager × Except RiskErr (Bool × String) :=
  let (s1, r1) := check_daily_loss_limit s account_info.portfolio_value
  match r1 with
  | .error e => (s1, .error e)
  | .ok (ok1, reason1) =>
    if ¬ ok1 then (s1, .ok (false, reason1))
    else
      let (s2, r2) := check_max_drawdown s1 account_info.portfolio_value
      match r2 with
      | .error e => (s2, .error e)
      | .ok (ok2, reason2) =>
        if ¬ ok2 then (s2, .ok (false, reason2))
        else
          match action with
          | .sell => (s2, .ok (true, ""))
          | .buy =>
            let position_value := quantity * price
            match check_position_size position_value
                account_info.portfolio_value asset_type with
            | .error e => (s2, .error e)
            | .ok (ok3, reason3) =>
              if ¬ ok3 then (s2, .ok (false, reason3))
              else
                let (ok4, reason4) :=
                  check_buying_power position_value account_info.buying_power
                if ¬ ok4 then (s2, .ok (false, reason4))
                else
                  let (ok5, reason5) := check_position_count current_positions
                  if ¬ ok5 then (s2, .ok (false, reason5))
                  else
                    match sector, sector_exposure with
                    | some sec, some exposures =>
                      if sec ≠ "" then
                        match check_sector_exposure sec position_value exposures
                            account_info.portfolio_value with
                        | .error e => (s2, .error e)
                        | .ok (ok6, reason6) =>
                          if ¬ ok6 then (s2, .ok (false, reason6))
                          else (s2, .ok (true, ""))
                      else (s2, .ok (true, ""))
                    | _, _ => (s2, .ok (true, ""))

/-- Truthiness of an optional float in Python: `None` and `0.0` are falsy. -/
def truthyQ : Option ℚ → Bool
  | none => false
  | some x => x ≠ 0

/-- `RiskManager.should_exit_position(...)` (state is never mutated).  The
stop-loss branch computes `loss_pct = (entry_price - current_price) /
entry_price` for the notification before returning, so it raises when
`entry_price = 0`; Python's `if stop_loss and ...` skips the branch when
`stop_loss` is `None` or `0`. -/
def should_exit_position (entry_price current_price : ℚ)
    (stop_loss profit_target : Option ℚ) : Except RiskErr (Bool × String) :=
  if truthyQ stop_loss ∧ current_price ≤ stop_loss.getD 0 then
    if entry_price = 0 then .error .zeroDivision
    else .ok (true, "Stop loss triggered")
  else if truthyQ profit_target ∧ current_price ≥ profit_target.getD 0 then
    .ok (true, "Profit target reached")
  else .ok (false, "")

/-! ## src/strategies/momentum.py — signal scoring -/

/-- Direction label of a component vote. -/
inductive Direction where
  | BULLISH
  | BEARISH
  | NEUTRAL
deriving DecidableEq, Repr

/-- `Direction` of the mirrored (down ↔ up) conviction. -/
def Direction.flip : Direction → Direction
  | .BULLISH => .BEARISH
  | .BEARISH => .BULLISH
  | .NEUTRAL => .NEUTRAL

/-- Composite clamp of `MomentumStrategy._analyze_symbol`:
`raw_score = tech_score + sent_score + ml_score + regime_adj` followed by
`score = max(0, min(100, raw_score))`. -/
def composite_score (tech_score sent_score ml_score_v regime_adj : ℚ) : ℚ :=
  max 0 (min 100 (tech_score + sent_score + ml_score_v + regime_adj))

/-- `MomentumStrategy._ml_score`: returns `(score, direction, probability)`.
`prob` is the model's up-probability and `acc` its accuracy estimate; the
reason strings are dropped.  (The `conviction` local of the source is
computed but never used.) -/
def ml_score (prob acc : ℚ) : ℚ × Direction × ℚ :=
  if acc < 48 / 100 then (12, .NEUTRAL, prob)
  else if prob ≥ 60 / 100 then (22, .BULLISH, prob)
  else if prob ≥ 52 / 100 then (16, .BULLISH, prob)
  else if prob ≥ 48 / 100 then (12, .NEUTRAL, prob)
  else if prob ≥ 40 / 100 then (16, .BEARISH, prob)
  else (22, .BEARISH, prob)

/-! ## src/strategies/options_strategy.py -/

/-- Pick returned by `options_data.find_best_call` / `find_best_put`:
the fields `_long_call_signal` / `_long_put_signal` read. -/
structure OptPick where
  strike : ℚ
  expiration : String
  dte : ℕ
  premium : ℚ
  cost_per_contract : ℚ
  suggested_qty : ℕ
  total_cost : ℚ
  underlying_price : ℚ
  implied_volatility : ℚ
deriving DecidableEq, Repr

/-- Pick returned by `options_data.find_bull_call_spread`: the fields
`_spread_signal` reads. -/
structure SpreadPick where
  long_strike : ℚ
  short_strike : ℚ
  expiration : String
  dte : ℕ
  net_debit : ℚ
  cost_per_contract : ℚ
  suggested_qty : ℕ
  total_cost : ℚ
  max_profit : ℚ
  max_loss : ℚ
  risk_reward : ℚ
  underlying_price : ℚ
deriving DecidableEq, Repr

/-- The options-chain collaborator (`options_data`), abstracted as three
lookup functions taking a symbol and a `max_budget`. -/
structure OptionsChain where
  find_best_call : String → ℚ → Option OptPick
  find_best_put : String → ℚ → Option OptPick
  find_bull_call_spread : String → ℚ → Option SpreadPick

/-- A stock signal dict as `generate_options_signals` reads it: `symbol`
indexed directly, `direction` / `score` / `confidence` via `.get` with
defaults — the fields hold the post-`get` values. -/
structure StockSignal where
  symbol : String
  direction : String
  score : ℚ
  confidence : String
deriving DecidableEq, Repr

/-- An options signal dict as built by the three signal builders;
`short_strike`, `max_profit`, `max_loss`, `risk_reward` and
`implied_volatility` are only present on some shapes, hence `Option`. -/
structure OptionSignal where
  symbol : String
  signal_type : String
  strategy : String
  score : ℚ
  confidence : String
  option_type : String
  strike : ℚ
  short_strike : Option ℚ
  expiration : String
  dte : ℕ
  premium : ℚ
  cost_per_contract : ℚ
  suggested_qty : ℕ
  total_cost : ℚ
  underlying_price : ℚ
  implied_volatility : Option ℚ
  max_profit : Option ℚ
  max_loss : Option ℚ
  risk_reward : Option ℚ
deriving DecidableEq, Repr

/-- `OptionsStrategy._confidence(score)`. -/
def options_confidence (score : ℚ) : String :=
  if score ≥ HIGH_CONFIDENCE_THRESHOLD then "HIGH"
  else if score ≥ MEDIUM_CONFIDENCE_THRESHOLD then "MEDIUM"
  else "LOW"

/-- `OptionsStrategy._long_call_signal(symbol, score, budget)`. -/
def long_call_signal (chain : OptionsChain) (symbol : String)
    (score budget : ℚ) : Option OptionSignal :=
  match chain.find_best_call symbol budget with
  | none => none
  | some pick => some
      { symbol := symbol
        signal_type := "BUY_CALL"
        strategy := "options_long_call"
        score := score
        confidence := options_confidence score
        option_type := "CALL"
        strike := pick.strike
        short_strike := none
        expiration := pick.expiration
        dte := pick.dte
        premium := pick.premium
        cost_per_contract := pick.cost_per_contract
        suggested_qty := pick.suggested_qty
        total_cost := pick.total_cost
        underlying_price := pick.underlying_price
        implied_volatility := some pick.implied_volatility
        max_profit := none
        max_loss := none
        risk_reward := none }

/-- `OptionsStrategy._long_put_signal(symbol, score, budget)`. -/
def long_put_signal (chain : OptionsChain) (symbol : String)
    (score budget : ℚ) : Option OptionSignal :=
  match chain.find_best_put symbol budget with
  | none => none
  | some pick => some
      { symbol := symbol
        signal_type := "BUY_PUT"
        strategy := "options_long_put"
        score := score
        confidence := options_confidence score
        option_type := "PUT"
        strike := pick.strike
        short_strike := none
        expiration := pick.expiration
        dte := pick.dte
        premium := pick.premium
        cost_per_contract := pick.cost_per_contract
        suggested_qty := pick.suggested_qty
        total_cost := pick.total_cost
        underlying_price := pick.underlying_price
        implied_volatility := some pick.implied_volatility
        max_profit := none
        max_loss := none
        risk_reward := none }

/-- `OptionsStrategy._spread_signal(symbol, score, budget)`. -/
def spread_signal (chain : OptionsChain) (symbol : String)
    (score budget : ℚ) : Option OptionSignal :=
  match chain.find_bull_call_spread symbol budget with
  | none => none
  | some pick => some
      { symbol := symbol
        signal_type := "BUY_SPREAD"
        strategy := "options_bull_spread"
        score := score
        confidence := options_confidence score
        option_type := "SPREAD"
        strike := pick.long_strike
        short_strike := some pick.short_strike
        expiration := pick.expiration
        dte := pick.dte
        premium := pick.net_debit
        cost_per_contract := pick.cost_per_contract
        suggested_qty := pick.suggested_qty
        total_cost := pick.total_cost
        underlying_price := pick.underlying_price
        implied_volatility := none
        max_profit := some pick.max_profit
        max_loss := some pick.max_loss
        risk_reward := some pick.risk_reward }

/-- Loop body of `generate_options_signals` for one stock signal. -/
def options_signal_for (chain : OptionsChain) (max_per_trade : ℚ)
    (sig : StockSignal) : Option OptionSignal :=
  if sig.score < MIN_ENTRY_SCORE then none
  else if sig.direction = "BULLISH" then
    if sig.confidence = "HIGH" ∧ sig.score ≥ HIGH_CONFIDENCE_THRESHOLD then
      long_call_signal chain sig.symbol sig.score max_per_trade
    else
      match spread_signal chain sig.symbol sig.score max_per_trade with
      | some s => some s
      | none => long_call_signal chain sig.symbol sig.score max_per_trade
  else if sig.direction = "BEARISH" then
    long_put_signal chain sig.symbol sig.score max_per_trade
  else none

/-- `OptionsStrategy.generate_options_signals(stock_signals,
options_budget)`: per-trade budget cap, per-signal selection, then the
stable descending sort by score. -/
def generate_options_signals (chain : OptionsChain)
    (stock_signals : List StockSignal) (options_budget : ℚ) :
    List OptionSignal :=
  if stock_signals = [] then []
  else
    let max_per_trade := options_budget * MAX_POSITION_SIZE_OPTION * 2
    let signals := stock_signals.filterMap (options_signal_for chain max_per_trade)
    signals.mergeSort (fun a b => decide (b.score ≤ a.score))

/-! ## src/execution/risk_manager.py — risk metrics -/

/-- Result dict of `RiskManager.get_risk_metrics` (the two config echoes
`max_drawdown_limit` and `daily_loss_limit` are omitted: they are the
constants). -/
structure RiskMetrics where
  current_equity : ℚ
  peak_equity : ℚ
  current_drawdown : ℚ
  daily_pnl : ℚ
  daily_pnl_pct : ℚ
  circuit_breaker_triggered : Bool
  max_drawdown_triggered : Bool
  risk_status : String
deriving DecidableEq, Repr

/-- `RiskManager._get_risk_status(drawdown, daily_loss_pct)`. -/
def get_risk_status (s : RiskManager) (drawdown daily_loss_pct : ℚ) : String :=
  if s.max_drawdown_triggered ∨ s.circuit_breaker_triggered then "CRITICAL"
  else if drawdown > MAX_DRAWDOWN * (75 / 100) then "HIGH"
  else if drawdown > MAX_DRAWDOWN * (50 / 100) ∨
      |daily_loss_pct| > DAILY_LOSS_LIMIT * (75 / 100) then "MEDIUM"
  else "LOW"

/-- `RiskManager.get_risk_metrics(account_info)` with
`current_equity = account_info.get("portfolio_value", 0)`.  Python
truthiness (`if self.peak_equity:` / `if self.daily_start_equity:`) sends
`None` and `0` to the zero branches, so no division can raise here, and
`self.peak_equity or current_equity` falls back on `None`/`0`. -/
def get_risk_metrics (s : RiskManager) (current_equity : ℚ) : RiskMetrics :=
  let current_drawdown :=
    match s.peak_equity with
    | some p => if p ≠ 0 then (p - current_equity) / p else 0
    | none => 0
  let daily_pnl :=
    match s.daily_start_equity with
    | some d => if d ≠ 0 then current_equity - d else 0
    | none => 0
  let daily_pnl_pct :=
    match s.daily_start_equity with
    | some d => if d ≠ 0 then (current_equity - d) / d else 0
    | none => 0
  { current_equity := current_equity
    peak_equity :=
      match s.peak_equity with
      | some p => if p ≠ 0 then p else current_equity
      | none => current_equity
    current_drawdown := current_drawdown
    daily_pnl := daily_pnl
    daily_pnl_pct := daily_pnl_pct
    circuit_breaker_triggered := s.circuit_breaker_triggered
    max_drawdown_triggered := s.max_drawdown_triggered
    risk_status := get_risk_status s current_drawdown daily_pnl_pct }

/-! ## Operation alphabet of the risk-manager state machine -/

/-- One call to a state-bearing `RiskManager` method (the methods the
temporal claims quantify over).  `reset` carries the calendar date the
method would read from the clock. -/
inductive RMOp where
  | reset (today : ℕ) (equity : ℚ)
  | updatePeak (equity : ℚ)
  | checkDaily (equity : ℚ)
  | checkDrawdown (equity : ℚ)
  | validate (action : Action) (quantity price : ℚ) (asset_type : AssetType)
      (account_info : AccountInfo) (current_positions : PositionCounts)
      (sector : Option String) (sector_exposure : Option (String → ℚ))

/-- State reached after one `RMOp` (the `Except` results are discarded:
a propagating exception leaves the object with the mutations already
made, which each method's embedding returns). -/
def applyOp (s : RiskManager) : RMOp → RiskManager
  | .reset today equity => reset_daily_limits s today equity
  | .updatePeak equity => update_peak_equity s equity
  | .checkDaily equity => (check_daily_loss_limit s equity).1
  | .checkDrawdown equity => (check_max_drawdown s equity).1
  | .validate action quantity price asset_type account_info current_positions
      sector sector_exposure =>
      (validate_trade s action quantity price asset_type account_info
        current_positions sector sector_exposure).1

/-- State after a sequence of calls. -/
def applyOps (s : RiskManager) (ops : List RMOp) : RiskManager :=
  ops.foldl applyOp s

/-! ## Helper lemmas about the risk-manager methods -/

theorem check_daily_already (s : RiskManager) (e : ℚ)
    (h : s.circuit_breaker_triggered = true) :
    check_daily_loss_limit s e =
      (s, .ok (false, "Circuit breaker already triggered today")) := by
  simp [check_daily_loss_limit, h]

theorem check_daily_fst_fields (s : RiskManager) (e : ℚ) :
    (check_daily_loss_limit s e).1.max_drawdown_triggered = s.max_drawdown_triggered ∧
    (check_daily_loss_limit s e).1.peak_equity = s.peak_equity ∧
    (check_daily_loss_limit s e).1.last_reset_date = s.last_reset_date := by
  obtain ⟨dse, pe, cb, mdd, dlc, lrd⟩ := s
  unfold check_daily_loss_limit
  cases cb <;> rcases dse with _ | d0 <;> simp <;> split_ifs <;> simp

theorem check_mdd_already (s : RiskManager) (e : ℚ)
    (h : s.max_drawdown_triggered = true) :
    check_max_drawdown s e =
      (s, .ok (false, "Max drawdown limit already triggered")) := by
  simp [check_max_drawdown, h]

theorem check_mdd_fst_fields (s : RiskManager) (e : ℚ) :
    (check_max_drawdown s e).1.circuit_breaker_triggered = s.circuit_breaker_triggered ∧
    (check_max_drawdown s e).1.daily_start_equity = s.daily_start_equity ∧
    (check_max_drawdown s e).1.last_reset_date = s.last_reset_date := by
  obtain ⟨dse, pe, cb, mdd, dlc, lrd⟩ := s
  unfold check_max_drawdown update_peak_equity
  cases mdd <;> rcases pe with _ | p <;> simp <;> split_ifs <;> simp

theorem update_peak_fields (s : RiskManager) (e : ℚ) :
    (update_peak_equity s e).circuit_breaker_triggered = s.circuit_breaker_triggered ∧
    (update_peak_equity s e).max_drawdown_triggered = s.max_drawdown_triggered ∧
    (update_peak_equity s e).daily_start_equity = s.daily_start_equity ∧
    (update_peak_equity s e).last_reset_date = s.last_reset_date := by
  obtain ⟨dse, pe, cb, mdd, dlc, lrd⟩ := s
  unfold update_peak_equity
  rcases pe with _ | p <;> simp <;> split_ifs <;> simp

theorem reset_mdd_peak (s : RiskManager) (today : ℕ) (e : ℚ) :
    (reset_daily_limits s today e).max_drawdown_triggered = s.max_drawdown_triggered ∧
    (reset_daily_limits s today e).peak_equity = s.peak_equity := by
  unfold reset_daily_limits
  split_ifs <;> simp

theorem reset_same_date (s : RiskManager) (today : ℕ) (e : ℚ)
    (h : s.last_reset_date = some today) :
    reset_daily_limits s today e = s := by
  simp [reset_daily_limits, h]

theorem validate_fst_of_breaker (s : RiskManager) (a : Action) (q p : ℚ)
    (at_ : AssetType) (acct : AccountInfo) (counts : PositionCounts)
    (sector : Option String) (exposures : Option (String → ℚ))
    (h : s.circuit_breaker_triggered = true) :
    validate_trade s a q p at_ acct counts sector exposures =
      (s, .ok (false, "Circuit breaker already triggered today")) := by
  unfold validate_trade
  rw [check_daily_already s _ h]
  simp

theorem validate_fst_mdd (s : RiskManager) (a : Action) (q p : ℚ)
    (at_ : AssetType) (acct : AccountInfo) (counts : PositionCounts)
    (sector : Option String) (exposures : Option (String → ℚ))
    (h : s.max_drawdown_triggered = true) :
    (validate_trade s a q p at_ acct counts sector exposures).1.max_drawdown_triggered
      = true := by
  unfold validate_trade
  rcases hcd : check_daily_loss_limit s acct.portfolio_value with ⟨s1, r1⟩
  have h1 : s1.max_drawdown_triggered = true := by
    have hf := (check_daily_fst_fields s acct.portfolio_value).1
    rw [hcd] at hf
    exact hf.trans h
  rcases r1 with e1 | ⟨ok1, reason1⟩
  · simpa using h1
  · cases ok1
    · simpa using h1
    · simp [check_mdd_already s1 acct.portfolio_value h1, h1]

theorem applyOp_mdd_step (s : RiskManager) (op : RMOp)
    (h : s.max_drawdown_triggered = true) :
    (applyOp s op).max_drawdown_triggered = true := by
  cases op with
  | reset today e => exact (reset_mdd_peak s today e).1.trans h
  | updatePeak e => exact (update_peak_fields s e).2.1.trans h
  | checkDaily e => exact (check_daily_fst_fields s e).1.trans h
  | checkDrawdown e => rw [show applyOp s (.checkDrawdown e) = (check_max_drawdown s e).1 from rfl, check_mdd_already s e h]; exact h
  | validate a q p at_ acct counts sector exposures =>
      exact validate_fst_mdd s a q p at_ acct counts sector exposures h

theorem applyOp_breaker_step (s : RiskManager) (op : RMOp)
    (hb : s.circuit_breaker_triggered = true)
    (hr : ∀ (d : ℕ) (v : ℚ), op = RMOp.reset d v → s.last_reset_date = some d) :
    (applyOp s op).circuit_breaker_triggered = true ∧
    (applyOp s op).last_reset_date = s.last_reset_date := by
  cases op with
  | reset today e =>
      rw [show applyOp s (.reset today e) = reset_daily_limits s today e from rfl,
        reset_same_date s today e (hr today e rfl)]
      exact ⟨hb, rfl⟩
  | updatePeak e => exact ⟨(update_peak_fields s e).1.trans hb, (update_peak_fields s e).2.2.2⟩
  | checkDaily e =>
      rw [show applyOp s (.checkDaily e) = (check_daily_loss_limit s e).1 from rfl,
        check_daily_already s e hb]
      exact ⟨hb, rfl⟩
  | checkDrawdown e => exact ⟨(check_mdd_fst_fields s e).1.trans hb, (check_mdd_fst_fields s e).2.2⟩
  | validate a q p at_ acct counts sector exposures =>
      rw [show applyOp s (.validate a q p at_ acct counts sector exposures)
          = (validate_trade s a q p at_ acct counts sector exposures).1 from rfl,
        validate_fst_of_breaker s a q p at_ acct counts sector exposures hb]
      exact ⟨hb, rfl⟩

theorem breaker_persists_aux (ops : List RMOp) : ∀ s : RiskManager,
    s.circuit_breaker_triggered = true →
    (∀ op ∈ ops, ∀ (d : ℕ) (v : ℚ), op = RMOp.reset d v → s.last_reset_date = some d) →
    (applyOps s ops).circuit_breaker_triggered = true ∧
    (applyOps s ops).last_reset_date = s.last_reset_date := by
  induction ops with
  | nil => intro s hb _; exact ⟨hb, rfl⟩
  | cons op ops ih =>
      intro s hb hr
      have step := applyOp_breaker_step s op hb (hr op (List.mem_cons_self op ops))
      have tail := ih (applyOp s op) step.1 (by
        intro op2 hmem d v hop
        rw [step.2]
        exact hr op2 (List.mem_cons_of_mem _ hmem) d v hop)
      exact ⟨tail.1, tail.2.trans step.2⟩

/-! ## Peak-equity order -/

/-- Monotonicity relation between recorded peaks: any peak recorded before
is still recorded afterwards, at least as large. -/
def peak_le (a b : Option ℚ) : Prop :=
  ∀ p : ℚ, a = some p → ∃ q : ℚ, b = some q ∧ p ≤ q

theorem peak_le_rfl (a : Option ℚ) : peak_le a a := fun p hp => ⟨p, hp, le_refl p⟩

theorem peak_le_trans {a b c : Option ℚ} (h1 : peak_le a b) (h2 : peak_le b c) :
    peak_le a c := by
  intro p hp
  obtain ⟨q, hq, hpq⟩ := h1 p hp
  obtain ⟨r, hr, hqr⟩ := h2 q hq
  exact ⟨r, hr, hpq.trans hqr⟩

/-- The two `RiskManager` methods that touch `peak_equity`. -/
inductive PeakOp where
  | upd (equity : ℚ)
  | chk (equity : ℚ)

/-- State after one peak-touching call (`update_peak_equity` or
`check_max_drawdown`). -/
def applyPeakOp (s : RiskManager) : PeakOp → RiskManager
  | .upd e => update_peak_equity s e
  | .chk e => (check_max_drawdown s e).1

theorem update_peak_peak (s : RiskManager) (e : ℚ) :
    peak_le s.peak_equity (update_peak_equity s e).peak_equity := by
  intro p hp
  unfold update_peak_equity
  rw [hp]
  dsimp only
  split_ifs with h
  · exact ⟨e, by simp, le_of_lt h⟩
  · exact ⟨p, by simpa using hp, le_refl p⟩

theorem check_mdd_peak (s : RiskManager) (e : ℚ) :
    peak_le s.peak_equity (check_max_drawdown s e).1.peak_equity := by
  intro p hp
  unfold check_max_drawdown
  split_ifs with h
  · exact ⟨p, hp, le_refl p⟩
  · obtain ⟨q, hq, hpq⟩ := update_peak_peak s e p hp
    rw [hp]
    simp only []
    split_ifs <;> exact ⟨q, by simp [hq], hpq⟩

/-! ## Claim theorems: risk-manager state machine -/

/-- C1: once `check_daily_loss_limit` latches `circuit_breaker_triggered`
(which it does exactly when the daily loss fraction reaches
`DAILY_LOSS_LIMIT`), every further `check_daily_loss_limit` call rejects
for every equity value and no operation changes that while every reset
carries the already-recorded date; a `reset_daily_limits` call with the
recorded date is a no-op, one with a different date clears the breaker and
restarts the day, after which a check whose loss fraction is below the
limit is allowed again. -/
theorem C1_circuit_breaker_latch :
    (∀ (s : RiskManager) (e : ℚ), s.circuit_breaker_triggered = true →
      check_daily_loss_limit s e =
        (s, .ok (false, "Circuit breaker already triggered today"))) ∧
    (∀ (s : RiskManager) (e d0 : ℚ), s.circuit_breaker_triggered = false →
      s.daily_start_equity = some d0 → d0 ≠ 0 →
      (d0 - e) / d0 ≥ DAILY_LOSS_LIMIT →
      check_daily_loss_limit s e =
        ({ s with circuit_breaker_triggered := true },
          .ok (false, "Daily loss limit hit"))) ∧
    (∀ (s : RiskManager) (today : ℕ) (e : ℚ), s.last_reset_date = some today →
      reset_daily_limits s today e = s) ∧
    (∀ (s : RiskManager) (today : ℕ) (e : ℚ), s.last_reset_date ≠ some today →
      (reset_daily_limits s today e).circuit_breaker_triggered = false ∧
      (reset_daily_limits s today e).daily_start_equity = some e ∧
      (reset_daily_limits s today e).last_reset_date = some today) ∧
    (∀ (s : RiskManager) (today : ℕ) (e0 e : ℚ), s.last_reset_date ≠ some today →
      e0 ≠ 0 → (e0 - e) / e0 < DAILY_LOSS_LIMIT →
      (check_daily_loss_limit (reset_daily_limits s today e0) e).2 = .ok (true, "")) ∧
    (∀ (s : RiskManager) (ops : List RMOp), s.circuit_breaker_triggered = true →
      (∀ op ∈ ops, ∀ (d : ℕ) (v : ℚ), op = RMOp.reset d v →
        s.last_reset_date = some d) →
      (applyOps s ops).circuit_breaker_triggered = true) := by
  refine ⟨check_daily_already, ?_, reset_same_date, ?_, ?_, ?_⟩
  · intro s e d0 hcb hdse hd0 hge
    simp [check_daily_loss_limit, hcb, hdse, hd0, hge]
  · intro s today e hdiff
    simp [reset_daily_limits, hdiff]
  · intro s today e0 e hdiff hd0 hlt
    simp [reset_daily_limits, hdiff, check_daily_loss_limit, hd0, not_le.mpr hlt]
  · intro s ops hb hr
    exact (breaker_persists_aux ops s hb hr).1

/-- Witness for C1 at a concrete latched state. -/
theorem C1_witness :
    check_daily_loss_limit ⟨some 100000, some 100000, true, false, 0, some 3⟩ 99000 =
      (⟨some 100000, some 100000, true, false, 0, some 3⟩,
        .ok (false, "Circuit breaker already triggered today")) :=
  C1_circuit_breaker_latch.1 _ 99000 rfl

/-- C2: once `max_drawdown_triggered` is true, it stays true across every
sequence of `RiskManager` operations with any arguments,
`check_max_drawdown` rejects for every equity value, and in particular
`reset_daily_limits` never changes the flag. -/
theorem C2_max_drawdown_sticky :
    (∀ (s : RiskManager) (ops : List RMOp), s.max_drawdown_triggered = true →
      (applyOps s ops).max_drawdown_triggered = true) ∧
    (∀ (s : RiskManager) (e : ℚ), s.max_drawdown_triggered = true →
      check_max_drawdown s e =
        (s, .ok (false, "Max drawdown limit already triggered"))) ∧
    (∀ (s : RiskManager) (today : ℕ) (e : ℚ),
      (reset_daily_limits s today e).max_drawdown_triggered
        = s.max_drawdown_triggered) := by
  refine ⟨?_, check_mdd_already, fun s today e => (reset_mdd_peak s today e).1⟩
  intro s ops h
  induction ops generalizing s with
  | nil => exact h
  | cons op ops ih => exact ih (applyOp s op) (applyOp_mdd_step s op h)

/-- Witness for C2: the flag survives a peak update, a reset with a new
date, a daily-loss check and a validation. -/
theorem C2_witness :
    (applyOps ⟨some 50000, some 100000, false, true, 0, some 3⟩
      [RMOp.updatePeak 200000, RMOp.reset 4 60000, RMOp.checkDaily 60000,
        RMOp.validate Action.buy 10 100 AssetType.stock ⟨60000, 60000⟩
          ⟨0, 0, 0⟩ none none]).max_drawdown_triggered = true :=
  C2_max_drawdown_sticky.1 _ _ rfl

/-- C3: `peak_equity` is monotonically non-decreasing: every single
`update_peak_equity` or `check_max_drawdown` call, and every sequence of
such calls, leaves any recorded peak recorded and at least as large. -/
theorem C3_peak_monotone :
    (∀ (s : RiskManager) (op : PeakOp),
      peak_le s.peak_equity ((applyPeakOp s op).peak_equity)) ∧
    (∀ (s : RiskManager) (ops : List PeakOp),
      peak_le s.peak_equity ((ops.foldl applyPeakOp s).peak_equity)) := by
  have step : ∀ (s : RiskManager) (op : PeakOp),
      peak_le s.peak_equity ((applyPeakOp s op).peak_equity) := by
    intro s op
    cases op with
    | upd e => exact update_peak_peak s e
    | chk e => exact check_mdd_peak s e
  refine ⟨step, ?_⟩
  intro s ops
  induction ops generalizing s with
  | nil => exact peak_le_rfl _
  | cons op ops ih => exact peak_le_trans (step s op) (ih (applyPeakOp s op))

/-- Witness for C3: feeding equities 70, 120, 90 after a recorded peak of
100 keeps a recorded peak at least 100. -/
theorem C3_witness :
    ∃ q : ℚ,
      (([PeakOp.upd 70, PeakOp.chk 120, PeakOp.upd 90].foldl applyPeakOp
        ⟨some 100, some 100, false, false, 0, some 3⟩).peak_equity) = some q ∧
      (100 : ℚ) ≤ q :=
  C3_peak_monotone.2 _ _ 100 rfl

/-! ## Claim theorems: scoring -/

/-- C4: for every combination of component values the collaborators can
induce (technical, sentiment, ML, regime adjustment — quantified over all
rationals), the composite score of `_analyze_symbol` lies in [0, 100]. -/
theorem C4_composite_score_bounded (tech_score sent_score ml_score_v regime_adj : ℚ) :
    0 ≤ composite_score tech_score sent_score ml_score_v regime_adj ∧
    composite_score tech_score sent_score ml_score_v regime_adj ≤ 100 := by
  unfold composite_score
  exact ⟨le_max_left 0 _, max_le (by norm_num) (min_le_left _ _)⟩

/-- C5: at a zero denominator the gates do not return a rejection — they
raise `ZeroDivisionError` (here `Except.error RiskErr.zeroDivision`):
`check_position_size` and `check_sector_exposure` with
`portfolio_value = 0`, and `check_daily_loss_limit` with
`daily_start_equity = 0`. -/
theorem C5_zero_denominator_raises :
    check_position_size 5000 0 AssetType.stock = .error RiskErr.zeroDivision ∧
    check_sector_exposure "Technology" 5000 (fun _ => 0) 0
      = .error RiskErr.zeroDivision ∧
    (check_daily_loss_limit ⟨some 0, none, false, false, 0, some 3⟩ 100).2
      = .error RiskErr.zeroDivision := by
  refine ⟨rfl, rfl, rfl⟩

/-! ### C7: band evaluation lemmas for `_ml_score` -/

theorem ml_score_band1 (prob acc : ℚ) (hn : ¬ acc < 48 / 100)
    (h : prob ≥ 60 / 100) : ml_score prob acc = (22, Direction.BULLISH, prob) := by
  unfold ml_score
  split_ifs <;> first | rfl | (exfalso; linarith)

theorem ml_score_band2 (prob acc : ℚ) (hn : ¬ acc < 48 / 100)
    (h1 : prob ≥ 52 / 100) (h2 : prob < 60 / 100) :
    ml_score prob acc = (16, Direction.BULLISH, prob) := by
  unfold ml_score
  split_ifs <;> first | rfl | (exfalso; linarith)

theorem ml_score_band3 (prob acc : ℚ) (hn : ¬ acc < 48 / 100)
    (h1 : prob ≥ 48 / 100) (h2 : prob < 52 / 100) :
    ml_score prob acc = (12, Direction.NEUTRAL, prob) := by
  unfold ml_score
  split_ifs <;> first | rfl | (exfalso; linarith)

theorem ml_score_band4 (prob acc : ℚ) (hn : ¬ acc < 48 / 100)
    (h1 : prob ≥ 40 / 100) (h2 : prob < 48 / 100) :
    ml_score prob acc = (16, Direction.BEARISH, prob) := by
  unfold ml_score
  split_ifs <;> first | rfl | (exfalso; linarith)

theorem ml_score_band5 (prob acc : ℚ) (hn : ¬ acc < 48 / 100)
    (h : prob < 40 / 100) : ml_score prob acc = (22, Direction.BEARISH, prob) := by
  unfold ml_score
  split_ifs <;> first | rfl | (exfalso; linarith)

/-- C7 counterexample: with accuracy at the floor's complement (0.5 ≥
0.48), the equal-conviction pair p = 0.6 and 1 − p = 0.4 receive scores
22 and 16 — the claimed point symmetry fails at the band boundary. -/
theorem C7_counterexample :
    (48 / 100 : ℚ) ≤ 1 / 2 ∧ (1 : ℚ) - 3 / 5 = 2 / 5 ∧
    (ml_score (3 / 5) (1 / 2)).1 ≠ (ml_score (2 / 5) (1 / 2)).1 := by
  refine ⟨by norm_num, by norm_num, ?_⟩
  rw [ml_score_band1 (3 / 5) (1 / 2) (by norm_num) (by norm_num),
    ml_score_band4 (2 / 5) (1 / 2) (by norm_num) (by norm_num) (by norm_num)]
  norm_num

/-- C7 (amended): for accuracy at or above the 0.48 floor, the ML score
is symmetric around 0.5 — p and 1 − p get the same score with opposite
directions — for every p that is not one of the four band boundaries
0.40, 0.48, 0.52, 0.60 (the half-open bands break the pairing exactly
there); accuracy below the floor forces NEUTRAL at the fixed mid score 12
regardless of probability. -/
theorem C7_amended_ml_symmetric (prob acc : ℚ) :
    (48 / 100 ≤ acc → prob ≠ 2 / 5 → prob ≠ 12 / 25 → prob ≠ 13 / 25 →
      prob ≠ 3 / 5 →
      (ml_score prob acc).1 = (ml_score (1 - prob) acc).1 ∧
      (ml_score (1 - prob) acc).2.1 = ((ml_score prob acc).2.1).flip) ∧
    (acc < 48 / 100 → ml_score prob acc = (12, Direction.NEUTRAL, prob)) := by
  constructor
  · intro hacc h1 h2 h3 h4
    have hn : ¬ acc < 48 / 100 := not_lt.mpr hacc
    rcases lt_or_ge prob (2 / 5) with c1 | c1
    · rw [ml_score_band5 prob acc hn (by linarith),
        ml_score_band1 (1 - prob) acc hn (by linarith)]
      exact ⟨rfl, rfl⟩
    · have c1s : 2 / 5 < prob := lt_of_le_of_ne c1 (Ne.symm h1)
      rcases lt_or_ge prob (12 / 25) with c2 | c2
      · rw [ml_score_band4 prob acc hn (by linarith) (by linarith),
          ml_score_band2 (1 - prob) acc hn (by linarith) (by linarith)]
        exact ⟨rfl, rfl⟩
      · have c2s : 12 / 25 < prob := lt_of_le_of_ne c2 (Ne.symm h2)
        rcases lt_or_ge prob (13 / 25) with c3 | c3
        · rw [ml_score_band3 prob acc hn (by linarith) (by linarith),
            ml_score_band3 (1 - prob) acc hn (by linarith) (by linarith)]
          exact ⟨rfl, rfl⟩
        · have c3s : 13 / 25 < prob := lt_of_le_of_ne c3 (Ne.symm h3)
          rcases lt_or_ge prob (3 / 5) with c4 | c4
          · rw [ml_score_band2 prob acc hn (by linarith) (by linarith),
              ml_score_band4 (1 - prob) acc hn (by linarith) (by linarith)]
            exact ⟨rfl, rfl⟩
          · have c4s : 3 / 5 < prob := lt_of_le_of_ne c4 (Ne.symm h4)
            rw [ml_score_band1 prob acc hn (by linarith),
              ml_score_band5 (1 - prob) acc hn (by linarith)]
            exact ⟨rfl, rfl⟩
  · intro hacc
    unfold ml_score
    rw [if_pos hacc]

/-- Witness for C7 at p = 0.55, accuracy 0.5. -/
theorem C7_witness :
    (ml_score (55 / 100) (1 / 2)).1 = (ml_score (1 - 55 / 100) (1 / 2)).1 ∧
    (ml_score (1 - 55 / 100) (1 / 2)).2.1 = ((ml_score (55 / 100) (1 / 2)).2.1).flip :=
  (C7_amended_ml_symmetric (55 / 100) (1 / 2)).1 (by norm_num) (by norm_num)
    (by norm_num) (by norm_num) (by norm_num)

/-! ## Claim theorems: exits -/

theorem should_exit_zero_stop_eval :
    should_exit_position 100 0 (some 0) none = .ok (false, "") := by
  have h1 : ¬ ((truthyQ (some (0 : ℚ)) = true) ∧
      (0 : ℚ) ≤ (some (0 : ℚ)).getD 0) := by
    rintro ⟨ht, _⟩
    simp [truthyQ] at ht
  have h2 : ¬ ((truthyQ (none : Option ℚ) = true) ∧
      (0 : ℚ) ≥ (none : Option ℚ).getD 0) := by
    rintro ⟨ht, _⟩
    simp [truthyQ] at ht
  unfold should_exit_position
  rw [if_neg h1, if_neg h2]

/-- C9 counterexample: a supplied stop_loss of 0 is falsy in Python, so
with `current_price = 0 ≤ 0 = stop_loss` the method returns
`(false, "")` instead of the claimed stop-loss exit. -/
theorem C9_counterexample :
    (0 : ℚ) ≤ 0 ∧
    should_exit_position 100 0 (some 0) none ≠ .ok (true, "Stop loss triggered") ∧
    should_exit_position 100 0 (some 0) none = .ok (false, "") := by
  refine ⟨le_refl 0, ?_, should_exit_zero_stop_eval⟩
  rw [should_exit_zero_stop_eval]
  intro hcontra
  simp at hcontra

/-- C9 (amended): for every supplied nonzero stop_loss (Python truthiness
treats 0 as absent) and nonzero entry price (the stop branch divides by
it for the notification), whenever `current_price ≤ stop_loss` the method
exits with the stop-loss reason, regardless of the profit target: the
stop check runs first, so a simultaneous target breach cannot mask it. -/
theorem C9_amended_stop_first (entry_price current_price stop : ℚ)
    (profit_target : Option ℚ) (hstop : stop ≠ 0) (hentry : entry_price ≠ 0)
    (h : current_price ≤ stop) :
    should_exit_position entry_price current_price (some stop) profit_target =
      .ok (true, "Stop loss triggered") := by
  unfold should_exit_position
  have hcond : (truthyQ (some stop) = true) ∧ current_price ≤ (some stop).getD 0 :=
    ⟨by simp [truthyQ, hstop], by simpa using h⟩
  rw [if_pos hcond, if_neg hentry]

/-- Witness for C9: stop 92, price 90, target 80 still supplied. -/
theorem C9_witness :
    should_exit_position 100 90 (some 92) (some 80) =
      .ok (true, "Stop loss triggered") :=
  C9_amended_stop_first 100 90 92 (some 80) (by norm_num) (by norm_num)
    (by norm_num)

/-! ## Claim theorems: risk metrics classification -/

theorem get_risk_status_spec (s : RiskManager) (cd dpp : ℚ) :
    (get_risk_status s cd dpp = "CRITICAL" ↔
      (s.circuit_breaker_triggered = true ∨ s.max_drawdown_triggered = true)) ∧
    (s.circuit_breaker_triggered = false → s.max_drawdown_triggered = false →
      ((get_risk_status s cd dpp = "HIGH" ↔ cd > MAX_DRAWDOWN * (75 / 100)) ∧
        (cd ≤ MAX_DRAWDOWN * (75 / 100) →
          ((get_risk_status s cd dpp = "MEDIUM" ↔
              (cd > MAX_DRAWDOWN * (50 / 100) ∨
                |dpp| > DAILY_LOSS_LIMIT * (75 / 100))) ∧
            (cd ≤ MAX_DRAWDOWN * (50 / 100) →
              |dpp| ≤ DAILY_LOSS_LIMIT * (75 / 100) →
              get_risk_status s cd dpp = "LOW"))))) := by
  unfold get_risk_status
  by_cases hc : (s.max_drawdown_triggered = true ∨ s.circuit_breaker_triggered = true)
  · rw [if_pos hc]
    refine ⟨iff_of_true rfl hc.symm, ?_⟩
    intro hcb hmd
    rcases hc with h | h
    · rw [hmd] at h; cases h
    · rw [hcb] at h; cases h
  · rw [if_neg hc]
    have hcb : s.circuit_breaker_triggered = false := by
      rcases Bool.eq_false_or_eq_true s.circuit_breaker_triggered with h | h
      · exact absurd (Or.inr h) hc
      · exact h
    have hmd : s.max_drawdown_triggered = false := by
      rcases Bool.eq_false_or_eq_true s.max_drawdown_triggered with h | h
      · exact absurd (Or.inl h) hc
      · exact h
    split_ifs with hH hM
    · refine ⟨iff_of_false (by decide) (by simp [hcb, hmd]), ?_⟩
      intro _ _
      refine ⟨iff_of_true rfl hH, ?_⟩
      intro hle
      exact absurd hH (not_lt.mpr hle)
    · refine ⟨iff_of_false (by decide) (by simp [hcb, hmd]), ?_⟩
      intro _ _
      refine ⟨iff_of_false (by decide) hH, ?_⟩
      intro _
      refine ⟨iff_of_true rfl hM, ?_⟩
      intro h50 habs
      rcases hM with h | h
      · exact absurd h (not_lt.mpr h50)
      · exact absurd h (not_lt.mpr habs)
    · refine ⟨iff_of_false (by decide) (by simp [hcb, hmd]), ?_⟩
      intro _ _
      refine ⟨iff_of_false (by decide) hH, ?_⟩
      intro _
      exact ⟨iff_of_false (by decide) hM, fun _ _ => rfl⟩

/-- C6 counterexample: with no breaker triggered, no recorded peak
(drawdown 0) and a daily GAIN of 10% (equity 110000 on a start of
100000), `get_risk_metrics` classifies MEDIUM — the `abs` in the code
counts gains against the daily-loss band — where the claim says a gain
day with small drawdown classifies LOW. -/
theorem C6_counterexample :
    (get_risk_metrics ⟨some 100000, none, false, false, 0, some 3⟩ 110000).risk_status
        = "MEDIUM" ∧
    (get_risk_metrics ⟨some 100000, none, false, false, 0, some 3⟩ 110000).daily_pnl_pct
        = 1 / 10 ∧
    (get_risk_metrics ⟨some 100000, none, false, false, 0, some 3⟩ 110000).current_drawdown
        = 0 := by
  refine ⟨?_, ?_, ?_⟩ <;>
    norm_num [get_risk_metrics, get_risk_status, MAX_DRAWDOWN, DAILY_LOSS_LIMIT,
      abs_of_nonneg]

/-- C6 (amended): `get_risk_metrics` classifies `risk_status` as CRITICAL
iff a breaker is triggered; otherwise HIGH iff drawdown > 0.75·MAX_DRAWDOWN;
otherwise MEDIUM iff drawdown > 0.50·MAX_DRAWDOWN or the ABSOLUTE daily
P&L fraction exceeds 0.75·DAILY_LOSS_LIMIT — a gain beyond that band also
classifies MEDIUM, not LOW — and LOW otherwise. -/
theorem C6_amended_risk_status (s : RiskManager) (e : ℚ) :
    ((get_risk_metrics s e).risk_status = "CRITICAL" ↔
      (s.circuit_breaker_triggered = true ∨ s.max_drawdown_triggered = true)) ∧
    (s.circuit_breaker_triggered = false → s.max_drawdown_triggered = false →
      (((get_risk_metrics s e).risk_status = "HIGH" ↔
          (get_risk_metrics s e).current_drawdown > MAX_DRAWDOWN * (75 / 100)) ∧
        ((get_risk_metrics s e).current_drawdown ≤ MAX_DRAWDOWN * (75 / 100) →
          (((get_risk_metrics s e).risk_status = "MEDIUM" ↔
              ((get_risk_metrics s e).current_drawdown > MAX_DRAWDOWN * (50 / 100) ∨
                |(get_risk_metrics s e).daily_pnl_pct| >
                  DAILY_LOSS_LIMIT * (75 / 100))) ∧
            ((get_risk_metrics s e).current_drawdown ≤ MAX_DRAWDOWN * (50 / 100) →
              |(get_risk_metrics s e).daily_pnl_pct| ≤
                DAILY_LOSS_LIMIT * (75 / 100) →
              (get_risk_metrics s e).risk_status = "LOW"))))) := by
  have hrs : (get_risk_metrics s e).risk_status
      = get_risk_status s (get_risk_metrics s e).current_drawdown
          (get_risk_metrics s e).daily_pnl_pct := rfl
  simpa only [← hrs] using
    get_risk_status_spec s (get_risk_metrics s e).current_drawdown
      (get_risk_metrics s e).daily_pnl_pct

/-- Witness for C6 on a quiet state: no breakers, nothing recorded,
status LOW. -/
theorem C6_witness :
    (get_risk_metrics ⟨none, none, false, false, 0, none⟩ 100).risk_status
      = "LOW" :=
  ((((C6_amended_risk_status ⟨none, none, false, false, 0, none⟩ 100).2
      rfl rfl).2 (by norm_num [get_risk_metrics, MAX_DRAWDOWN])).2
    (by norm_num [get_risk_metrics, MAX_DRAWDOWN]))
    (by norm_num [get_risk_metrics, DAILY_LOSS_LIMIT])

/-! ## Claim theorems: options selection -/

theorem long_call_signal_congr {chain chain2 : OptionsChain} {symbol : String}
    {score budget : ℚ}
    (h : chain.find_best_call symbol budget = chain2.find_best_call symbol budget) :
    long_call_signal chain symbol score budget
      = long_call_signal chain2 symbol score budget := by
  unfold long_call_signal
  rw [h]

theorem long_put_signal_congr {chain chain2 : OptionsChain} {symbol : String}
    {score budget : ℚ}
    (h : chain.find_best_put symbol budget = chain2.find_best_put symbol budget) :
    long_put_signal chain symbol score budget
      = long_put_signal chain2 symbol score budget := by
  unfold long_put_signal
  rw [h]

theorem spread_signal_congr {chain chain2 : OptionsChain} {symbol : String}
    {score budget : ℚ}
    (h : chain.find_bull_call_spread symbol budget
      = chain2.find_bull_call_spread symbol budget) :
    spread_signal chain symbol score budget
      = spread_signal chain2 symbol score budget := by
  unfold spread_signal
  rw [h]

theorem options_signal_for_congr {chain chain2 : OptionsChain} {cap : ℚ}
    (sig : StockSignal)
    (hc : chain.find_best_call sig.symbol cap = chain2.find_best_call sig.symbol cap)
    (hp : chain.find_best_put sig.symbol cap = chain2.find_best_put sig.symbol cap)
    (hs : chain.find_bull_call_spread sig.symbol cap
      = chain2.find_bull_call_spread sig.symbol cap) :
    options_signal_for chain cap sig = options_signal_for chain2 cap sig := by
  unfold options_signal_for
  rw [long_call_signal_congr hc, long_put_signal_congr hp, spread_signal_congr hs]

theorem long_call_signal_score {chain : OptionsChain} {symbol : String}
    {score budget : ℚ} {out : OptionSignal}
    (h : long_call_signal chain symbol score budget = some out) :
    out.score = score := by
  unfold long_call_signal at h
  cases hc : chain.find_best_call symbol budget with
  | none => rw [hc] at h; cases h
  | some pick => rw [hc] at h; cases h; rfl

theorem long_put_signal_score {chain : OptionsChain} {symbol : String}
    {score budget : ℚ} {out : OptionSignal}
    (h : long_put_signal chain symbol score budget = some out) :
    out.score = score := by
  unfold long_put_signal at h
  cases hc : chain.find_best_put symbol budget with
  | none => rw [hc] at h; cases h
  | some pick => rw [hc] at h; cases h; rfl

theorem spread_signal_score {chain : OptionsChain} {symbol : String}
    {score budget : ℚ} {out : OptionSignal}
    (h : spread_signal chain symbol score budget = some out) :
    out.score = score := by
  unfold spread_signal at h
  cases hc : chain.find_bull_call_spread symbol budget with
  | none => rw [hc] at h; cases h
  | some pick => rw [hc] at h; cases h; rfl

/-- C8: `generate_options_signals` consults the options-chain collaborator
only at `max_budget = options_budget * MAX_POSITION_SIZE_OPTION * 2` —
two chains that agree at that budget produce identical output for every
input signal list — and with `options_budget = 10000` the per-trade cap
is 1000. -/
theorem C8_budget_cap (chain chain2 : OptionsChain)
    (stock_signals : List StockSignal) (options_budget : ℚ)
    (hc : ∀ sym, chain.find_best_call sym
        (options_budget * MAX_POSITION_SIZE_OPTION * 2)
      = chain2.find_best_call sym (options_budget * MAX_POSITION_SIZE_OPTION * 2))
    (hp : ∀ sym, chain.find_best_put sym
        (options_budget * MAX_POSITION_SIZE_OPTION * 2)
      = chain2.find_best_put sym (options_budget * MAX_POSITION_SIZE_OPTION * 2))
    (hs : ∀ sym, chain.find_bull_call_spread sym
        (options_budget * MAX_POSITION_SIZE_OPTION * 2)
      = chain2.find_bull_call_spread sym
        (options_budget * MAX_POSITION_SIZE_OPTION * 2)) :
    generate_options_signals chain stock_signals options_budget
      = generate_options_signals chain2 stock_signals options_budget ∧
    (10000 : ℚ) * MAX_POSITION_SIZE_OPTION * 2 = 1000 := by
  constructor
  · unfold generate_options_signals
    split_ifs with h
    · rfl
    · have hfm : stock_signals.filterMap
          (options_signal_for chain (options_budget * MAX_POSITION_SIZE_OPTION * 2))
        = stock_signals.filterMap
          (options_signal_for chain2
            (options_budget * MAX_POSITION_SIZE_OPTION * 2)) :=
        List.filterMap_congr (fun sig _ =>
          options_signal_for_congr sig (hc sig.symbol) (hp sig.symbol)
            (hs sig.symbol))
      show (stock_signals.filterMap
          (options_signal_for chain
            (options_budget * MAX_POSITION_SIZE_OPTION * 2))).mergeSort
          (fun a b => decide (b.score ≤ a.score))
        = (stock_signals.filterMap
          (options_signal_for chain2
            (options_budget * MAX_POSITION_SIZE_OPTION * 2))).mergeSort
          (fun a b => decide (b.score ≤ a.score))
      rw [hfm]
  · norm_num [MAX_POSITION_SIZE_OPTION]

/-- Witness for C8 with a trivial chain and the scenario budget 10000. -/
theorem C8_witness :
    generate_options_signals ⟨fun _ _ => none, fun _ _ => none, fun _ _ => none⟩
        [⟨"AAPL", "BULLISH", 75, "MEDIUM"⟩] 10000
      = generate_options_signals ⟨fun _ _ => none, fun _ _ => none, fun _ _ => none⟩
        [⟨"AAPL", "BULLISH", 75, "MEDIUM"⟩] 10000 ∧
    (10000 : ℚ) * MAX_POSITION_SIZE_OPTION * 2 = 1000 :=
  C8_budget_cap ⟨fun _ _ => none, fun _ _ => none, fun _ _ => none⟩
    ⟨fun _ _ => none, fun _ _ => none, fun _ _ => none⟩
    [⟨"AAPL", "BULLISH", 75, "MEDIUM"⟩] 10000
    (fun _ => rfl) (fun _ => rfl) (fun _ => rfl)

/-- C10: every signal in the output of `generate_options_signals` carries
`score ≥ MIN_ENTRY_SCORE`, for every input list — the selector skips
below-threshold input signals itself, so the caller need not pre-filter. -/
theorem C10_output_scores_above_min (chain : OptionsChain)
    (stock_signals : List StockSignal) (options_budget : ℚ) (out : OptionSignal)
    (hmem : out ∈ generate_options_signals chain stock_signals options_budget) :
    MIN_ENTRY_SCORE ≤ out.score := by
  unfold generate_options_signals at hmem
  split_ifs at hmem with h
  · simp at hmem
  · rw [List.mem_mergeSort, List.mem_filterMap] at hmem
    obtain ⟨sig, _, hsig⟩ := hmem
    have hge : ¬ sig.score < MIN_ENTRY_SCORE := by
      intro hlt
      unfold options_signal_for at hsig
      rw [if_pos hlt] at hsig
      cases hsig
    unfold options_signal_for at hsig
    rw [if_neg hge] at hsig
    by_cases hb : sig.direction = "BULLISH"
    · rw [if_pos hb] at hsig
      by_cases hhigh : (sig.confidence = "HIGH" ∧
          sig.score ≥ HIGH_CONFIDENCE_THRESHOLD)
      · rw [if_pos hhigh] at hsig
        rw [long_call_signal_score hsig]
        exact not_lt.mp hge
      · rw [if_neg hhigh] at hsig
        cases hsp : spread_signal chain sig.symbol sig.score
            (options_budget * MAX_POSITION_SIZE_OPTION * 2) with
        | some sp =>
            rw [hsp] at hsig
            cases hsig
            rw [spread_signal_score hsp]
            exact not_lt.mp hge
        | none =>
            rw [hsp] at hsig
            rw [long_call_signal_score hsig]
            exact not_lt.mp hge
    · rw [if_neg hb] at hsig
      by_cases hbe : sig.direction = "BEARISH"
      · rw [if_pos hbe] at hsig
        rw [long_put_signal_score hsig]
        exact not_lt.mp hge
      · rw [if_neg hbe] at hsig
        cases hsig

/-- A concrete chain that always offers one put contract. -/
def put_chain : OptionsChain :=
  ⟨fun _ _ => none,
    fun _ _ => some
      { strike := 100, expiration := "2026-01-16", dte := 37, premium := 5 / 2,
        cost_per_contract := 250, suggested_qty := 2, total_cost := 500,
        underlying_price := 98, implied_volatility := 30 },
    fun _ _ => none⟩

/-- Witness for C10: a BEARISH signal with score 75 yields a BUY_PUT
output whose score is above the entry threshold. -/
theorem C10_witness :
    MIN_ENTRY_SCORE ≤
      (OptionSignal.mk "NVDA" "BUY_PUT" "options_long_put" 75 "MEDIUM" "PUT"
        100 none "2026-01-16" 37 (5 / 2) 250 2 500 98 (some 30) none none
        none).score :=
  C10_output_scores_above_min put_chain [⟨"NVDA", "BEARISH", 75, "MEDIUM"⟩]
    10000 _ (by
      unfold generate_options_signals
      rw [if_neg (by simp), List.mem_mergeSort]
      norm_num [options_signal_for, long_put_signal, put_chain, options_confidence,
        MIN_ENTRY_SCORE, HIGH_CONFIDENCE_THRESHOLD, MEDIUM_CONFIDENCE_THRESHOLD]
      exact fun hcontra => absurd hcontra (by decide))

end StockTradingAgent
